import Mathlib

/-!
Verification of the John Snow cholera dashboard (`johnsnow_dashboard_app.py`)
against its natural-language specification.

The module-level Streamlit script is embedded shallowly:
* tabular point sources (`pandas` data frames with numeric `x`/`y` columns)
  become lists of `Row`;
* `load_data` builds point geometries `Point(row.y, row.x)` stamped with
  CRS `EPSG:4326`, embedded as `loadPoints` / `load_data`;
* `load_area_shapefile` conditionally reprojects the area collection,
  embedded with the external `to_crs` collaborator as a function parameter;
* the module-level map assembly (center, basemap dispatch, per-layer
  conditional construction, layer control) becomes `buildMap`, whose
  output `MapView` records the `folium.Map` children in insertion order.

Coordinates are modelled as exact rationals (`ℚ`).
-/

set_option autoImplicit false

namespace JohnSnow

/-- A row of a tabular point source: numeric `x` and `y` columns. -/
structure Row where
  x : ℚ
  y : ℚ
  deriving DecidableEq, Repr

/-- A loaded point geometry: `geomX` is the geometry's x axis
(longitude-equivalent), `geomY` its y axis. -/
structure PointRecord where
  geomX : ℚ
  geomY : ℚ
  deriving DecidableEq, Repr

/-- A GeoDataFrame of points: a declared CRS plus the point records. -/
structure GeoFrame where
  crs : String
  records : List PointRecord
  deriving DecidableEq, Repr

/-- `Point(xy) for xy in zip(df["y"], df["x"])`: the table's `y` column is
the geometry's x axis and the table's `x` column is the geometry's y axis. -/
def loadPoints (rows : List Row) : List PointRecord :=
  rows.map (fun r => { geomX := r.y, geomY := r.x })

/-- `load_data`: read both tabular sources and build the two
GeoDataFrames, each stamped with CRS `EPSG:4326`. -/
def load_data (deaths_rows pumps_rows : List Row) : GeoFrame × GeoFrame :=
  ({ crs := "EPSG:4326", records := loadPoints deaths_rows },
   { crs := "EPSG:4326", records := loadPoints pumps_rows })

/-- A polygon: an ordered ring of coordinates. -/
structure Polygon where
  ring : List (ℚ × ℚ)
  deriving DecidableEq, Repr

/-- An area record: attribute (field-name, field-value) pairs in stable
column order, plus the polygon geometry. -/
structure AreaRecord where
  attrs : List (String × String)
  geom : Polygon
  deriving DecidableEq, Repr

/-- The area GeoDataFrame: declared CRS, column list (the `geometry`
column included) in stable order, and the records. -/
structure AreaGDF where
  crs : String
  columns : List String
  rows : List AreaRecord
  deriving DecidableEq, Repr

/-- `load_area_shapefile` after the external file read: if the declared
CRS differs from `EPSG:4326` the external `to_crs` collaborator
reprojects, otherwise the collection passes through unchanged. -/
def load_area_shapefile (to_crs : AreaGDF → AreaGDF) (area_gdf : AreaGDF) :
    AreaGDF :=
  if area_gdf.crs ≠ "EPSG:4326" then to_crs area_gdf else area_gdf

/-- Bounds check for a source row interpreted as (latitude `x`,
longitude `y`): `x ∈ [-90, 90]` and `y ∈ [-180, 180]`. -/
def Row.inBounds (r : Row) : Prop :=
  -90 ≤ r.x ∧ r.x ≤ 90 ∧ -180 ≤ r.y ∧ r.y ≤ 180

instance (r : Row) : Decidable r.inBounds := by
  unfold Row.inBounds; infer_instance

/-- Bounds check for a loaded point: latitude (`geomY`) within
`[-90, 90]` and longitude (`geomX`) within `[-180, 180]`. -/
def PointRecord.validCoord (p : PointRecord) : Prop :=
  -90 ≤ p.geomY ∧ p.geomY ≤ 90 ∧ -180 ≤ p.geomX ∧ p.geomX ≤ 180

instance (p : PointRecord) : Decidable p.validCoord := by
  unfold PointRecord.validCoord; infer_instance

/-- A folium tile layer: tile source identifier, optional attribution,
and display name. -/
structure TileLayer where
  tiles : String
  attr : Option String
  name : String
  deriving DecidableEq, Repr

/-- A `folium.CircleMarker` as built for a death point. -/
structure CircleMarker where
  location : ℚ × ℚ
  radius : ℚ
  color : String
  fill : Bool
  fillOpacity : ℚ
  popup : String
  deriving DecidableEq, Repr

/-- A `folium.Marker` as built for a pump, with its `folium.Icon`. -/
structure Marker where
  location : ℚ × ℚ
  popup : String
  iconColor : String
  icon : String
  iconPfx : String
  deriving DecidableEq, Repr

/-- A child added to the `folium.Map`, in insertion order. A
`CircleMarker` may in principle be added directly to the map
(`circle`) or inside a named `MarkerCluster` (`deathCluster`). -/
inductive Child where
  | tile (t : TileLayer)
  | deathCluster (name : String) (markers : List CircleMarker)
  | circle (c : CircleMarker)
  | pumpMarker (m : Marker)
  | areaGeoJson (name : String) (tooltipFields : List String)
      (tooltipAliases : List String) (records : List AreaRecord)
  | layerControl
  deriving DecidableEq, Repr

/-- The assembled `folium.Map`: center location, initial zoom, and the
children in the order they were added. -/
structure MapView where
  location : ℚ × ℚ
  zoom_start : ℕ
  children : List Child
  deriving DecidableEq, Repr

/-- The sidebar control state: the three layer checkboxes and the
basemap selection. -/
structure ControlState where
  show_deaths : Bool
  show_pumps : Bool
  show_area : Bool
  basemap : String
  deriving DecidableEq, Repr

/-- The basemap dispatch (`if`/`elif` chain with no `else`): each of the
three enumerated choices adds one tile layer; any other string adds
nothing. -/
def basemapTile (choice : String) : Option TileLayer :=
  if choice = "OpenStreetMap" then
    some { tiles := "OpenStreetMap", attr := none, name := "OpenStreetMap" }
  else if choice = "CartoDB Positron" then
    some { tiles := "CartoDB Positron", attr := none,
           name := "CartoDB Positron" }
  else if choice = "Esri WorldImagery" then
    some { tiles := "https://server.arcgisonline.com/ArcGIS/rest/services/World_Imagery/MapServer/tile/\x7bz\x7d/\x7by\x7d/\x7bx\x7d",
           attr := some "Esri", name := "Esri WorldImagery" }
  else none

/-- Arithmetic mean of a list of rationals (the `pandas` `.mean()`). -/
def mean (l : List ℚ) : ℚ := l.sum / l.length

/-- `center_lat = deaths_gdf.geometry.y.mean()`. -/
def center_lat (deaths : List PointRecord) : ℚ :=
  mean (deaths.map PointRecord.geomY)

/-- `center_lon = deaths_gdf.geometry.x.mean()`. -/
def center_lon (deaths : List PointRecord) : ℚ :=
  mean (deaths.map PointRecord.geomX)

/-- The `folium.CircleMarker` built for one death record: location is
`[geometry.y, geometry.x]`, fixed style, fixed popup text. -/
def deathMarker (r : PointRecord) : CircleMarker :=
  { location := (r.geomY, r.geomX), radius := 3, color := "red",
    fill := true, fillOpacity := 7/10, popup := "Death Location" }

/-- The `folium.Marker` built for one pump record. -/
def pumpMarker (r : PointRecord) : Marker :=
  { location := (r.geomY, r.geomX), popup := "Water Pump",
    iconColor := "blue", icon := "tint", iconPfx := "fa" }

/-- The tooltip field list of the area layer:
`[col for col in area_gdf.columns if col != 'geometry']`. -/
def tooltip_fields (area_gdf : AreaGDF) : List String :=
  area_gdf.columns.filter (fun col => col != "geometry")

/-- The `folium.GeoJson` child built for the area collection, with its
`GeoJsonTooltip` fields and aliases. -/
def areaLayer (area_gdf : AreaGDF) : Child :=
  Child.areaGeoJson "Cholera Area Polygons" (tooltip_fields area_gdf)
    (tooltip_fields area_gdf) area_gdf.rows

/-- The three conditional layer-construction blocks of the script, in
source order: death cluster (lines 77-87), individual pump markers
(lines 90-96), area GeoJson layer (lines 99-113). -/
def layerChildren (sd sp sa : Bool) (deaths pumps : List PointRecord)
    (areas : AreaGDF) : List Child :=
  (if sd then
      [Child.deathCluster "Cholera Deaths" (deaths.map deathMarker)]
    else [])
    ++ (if sp then pumps.map (fun r => Child.pumpMarker (pumpMarker r))
        else [])
    ++ (if sa then [areaLayer areas] else [])

/-- The module-level map assembly: create the map centered on the deaths
mean with `zoom_start=16` and `tiles=None`, add the selected basemap (if
recognized), then conditionally the death cluster, the individual pump
markers, the area GeoJson layer, and finally the `LayerControl`. -/
def buildMap (ctrl : ControlState) (deaths pumps : List PointRecord)
    (areas : AreaGDF) : MapView :=
  { location := (center_lat deaths, center_lon deaths),
    zoom_start := 16,
    children :=
      (basemapTile ctrl.basemap).toList.map Child.tile
        ++ layerChildren ctrl.show_deaths ctrl.show_pumps ctrl.show_area
            deaths pumps areas
        ++ [Child.layerControl] }

/-- The full render result: the map plus the two summary metrics
`len(deaths_gdf)` and `len(pumps_gdf)`. -/
structure RenderResult where
  view : MapView
  deathCount : ℕ
  pumpCount : ℕ
  deriving DecidableEq, Repr

/-- One render of the dashboard from loaded data and control state. -/
def render (ctrl : ControlState) (deaths pumps : List PointRecord)
    (areas : AreaGDF) : RenderResult :=
  { view := buildMap ctrl deaths pumps areas,
    deathCount := deaths.length,
    pumpCount := pumps.length }

/-- The display name a child contributes to the `LayerControl`
enumeration: tile layers, the named `MarkerCluster` and the named
`GeoJson` layer are listed; unnamed markers and the control are not. -/
def Child.layerName : Child → Option String
  | Child.tile t => some t.name
  | Child.deathCluster n _ => some n
  | Child.circle _ => none
  | Child.pumpMarker _ => none
  | Child.areaGeoJson n _ _ _ => some n
  | Child.layerControl => none

/-- The entries the attached `LayerControl` enumerates: the names of the
named layers on the map, in insertion order. -/
def controlEntries (m : MapView) : List String :=
  m.children.filterMap Child.layerName

end JohnSnow

namespace JohnSnow

/-- C3: for every row of a tabular point source loaded by `load_data`
(deaths or pumps), the geometry is `Point(row.y, row.x)`: the geometry's
x axis holds the table's `y` column and the geometry's y axis holds the
table's `x` column. -/
theorem load_data_swaps_axes (deaths_rows pumps_rows : List Row)
    (i : ℕ) (hd : i < deaths_rows.length) (hp : i < pumps_rows.length) :
    ((load_data deaths_rows pumps_rows).1.records.get
        ⟨i, by simpa [load_data, loadPoints] using hd⟩).geomX
      = (deaths_rows.get ⟨i, hd⟩).y
    ∧ ((load_data deaths_rows pumps_rows).1.records.get
        ⟨i, by simpa [load_data, loadPoints] using hd⟩).geomY
      = (deaths_rows.get ⟨i, hd⟩).x
    ∧ ((load_data deaths_rows pumps_rows).2.records.get
        ⟨i, by simpa [load_data, loadPoints] using hp⟩).geomX
      = (pumps_rows.get ⟨i, hp⟩).y
    ∧ ((load_data deaths_rows pumps_rows).2.records.get
        ⟨i, by simpa [load_data, loadPoints] using hp⟩).geomY
      = (pumps_rows.get ⟨i, hp⟩).x := by
  refine ⟨?_, ?_, ?_, ?_⟩ <;> simp [load_data, loadPoints]

/-- Witness for C3 at a concrete one-row pair of sources. -/
theorem load_data_swaps_axes_witness :
    ((load_data [{ x := (515 : ℚ)/10, y := -(1 : ℚ)/10 }]
        [{ x := (515 : ℚ)/10, y := -(1 : ℚ)/10 }]).1.records.get
          ⟨0, by decide⟩).geomX = -(1 : ℚ)/10 := by
  have h := load_data_swaps_axes
    [{ x := (515 : ℚ)/10, y := -(1 : ℚ)/10 }]
    [{ x := (515 : ℚ)/10, y := -(1 : ℚ)/10 }] 0 (by decide) (by decide)
  simpa using h.1

/-- C6: the coordinate normalizer is idempotent: if the declared CRS
already equals the target `EPSG:4326`, `load_area_shapefile` returns the
collection unchanged (so coordinates are identical), and hence
normalizing an already-normalized collection changes nothing. -/
theorem load_area_shapefile_idempotent (to_crs : AreaGDF → AreaGDF)
    (g : AreaGDF) (h : g.crs = "EPSG:4326") :
    load_area_shapefile to_crs g = g
    ∧ load_area_shapefile to_crs (load_area_shapefile to_crs g)
        = load_area_shapefile to_crs g := by
  have h1 : load_area_shapefile to_crs g = g := by
    simp [load_area_shapefile, h]
  exact ⟨h1, by rw [h1, h1]⟩

/-- Witness for C6 at a concrete already-normalized collection. -/
theorem load_area_shapefile_idempotent_witness :
    load_area_shapefile id
      { crs := "EPSG:4326", columns := ["name", "geometry"],
        rows := [] }
      = { crs := "EPSG:4326", columns := ["name", "geometry"], rows := [] } :=
  (load_area_shapefile_idempotent id
    { crs := "EPSG:4326", columns := ["name", "geometry"], rows := [] }
    rfl).1

/-- The three death points of the specification scenario:
(51.5, -0.1), (51.51, -0.12), (51.49, -0.09) as (lat, lon), i.e.
`geomY` = latitude, `geomX` = longitude. -/
def deaths3 : List PointRecord :=
  [{ geomX := -(1 : ℚ)/10, geomY := (515 : ℚ)/10 },
   { geomX := -(12 : ℚ)/100, geomY := (5151 : ℚ)/100 },
   { geomX := -(9 : ℚ)/100, geomY := (5149 : ℚ)/100 }]

/-- The single pump of the specification scenario at (51.5, -0.1). -/
def pumps1 : List PointRecord :=
  [{ geomX := -(1 : ℚ)/10, geomY := (515 : ℚ)/10 }]

/-- A concrete two-polygon area source with attribute fields
`name` and `cases`. -/
def areas2 : AreaGDF :=
  { crs := "EPSG:4326",
    columns := ["name", "cases", "geometry"],
    rows :=
      [{ attrs := [("name", "A"), ("cases", "10")],
         geom := { ring := [(0, 0), (0, 1), (1, 0)] } },
       { attrs := [("name", "B"), ("cases", "3")],
         geom := { ring := [(0, 0), (0, 2), (2, 0)] } }] }

/-- All three layers enabled, basemap `OpenStreetMap`. -/
def ctrlAll : ControlState :=
  { show_deaths := true, show_pumps := true, show_area := true,
    basemap := "OpenStreetMap" }

/-- Formalisation of the specification sentence (not of the source), for
comparison with the code's center: the arithmetic mean (mean latitude,
mean longitude) over the coordinates of all enabled point layers, deaths
and pumps together when both are enabled. -/
def spec_center (show_deaths show_pumps : Bool)
    (deaths pumps : List PointRecord) : ℚ × ℚ :=
  ((if show_deaths then deaths else [])
      ++ (if show_pumps then pumps else [])).map PointRecord.geomY |> mean
  |> fun la =>
    (la, mean (((if show_deaths then deaths else [])
      ++ (if show_pumps then pumps else [])).map PointRecord.geomX))

/-- The code's center latitude on the scenario deaths: 51.5. -/
theorem center_lat_deaths3 : center_lat deaths3 = (103 : ℚ)/2 := by
  norm_num [center_lat, mean, deaths3]

/-- The code's center longitude on the scenario deaths: -31/300. -/
theorem center_lon_deaths3 : center_lon deaths3 = -(31 : ℚ)/300 := by
  norm_num [center_lon, mean, deaths3]

/-- Counterexample to C1: on the specification's own scenario (3 deaths,
1 pump, both point layers enabled) the code's map center is the mean of
the deaths coordinates alone, (51.5, -31/300) ≈ (51.5, -0.10333), not
the mean over deaths and pumps together, (51.5, -41/400) = (51.5, -0.1025). -/
theorem center_counterexample :
    (buildMap ctrlAll deaths3 pumps1 areas2).location
        = ((103 : ℚ)/2, -(31 : ℚ)/300)
    ∧ spec_center true true deaths3 pumps1 = ((103 : ℚ)/2, -(41 : ℚ)/400)
    ∧ (buildMap ctrlAll deaths3 pumps1 areas2).location
        ≠ spec_center true true deaths3 pumps1 := by
  have h1 : (buildMap ctrlAll deaths3 pumps1 areas2).location
      = ((103 : ℚ)/2, -(31 : ℚ)/300) := by
    show (center_lat deaths3, center_lon deaths3) = _
    rw [center_lat_deaths3, center_lon_deaths3]
  have h2 : spec_center true true deaths3 pumps1
      = ((103 : ℚ)/2, -(41 : ℚ)/400) := by
    norm_num [spec_center, mean, deaths3, pumps1]
  refine ⟨h1, h2, ?_⟩
  rw [h1, h2]
  intro heq
  have h3 := congrArg Prod.snd heq
  norm_num at h3

/-- C1 amended: the map center is always the arithmetic mean of the
deaths coordinates alone — the pump layer and all three toggles have no
influence on it, and no fallback center exists; on the scenario data the
center is (51.5, -31/300) ≈ (51.5, -0.10333). -/
theorem center_is_deaths_mean (c1 c2 : ControlState)
    (deaths p1 p2 : List PointRecord) (a1 a2 : AreaGDF) :
    (buildMap c1 deaths p1 a1).location = (buildMap c2 deaths p2 a2).location
    ∧ (buildMap c1 deaths p1 a1).location
        = (mean (deaths.map PointRecord.geomY),
           mean (deaths.map PointRecord.geomX))
    ∧ (buildMap c1 deaths3 p1 a1).location = ((103 : ℚ)/2, -(31 : ℚ)/300) := by
  refine ⟨rfl, rfl, ?_⟩
  show (center_lat deaths3, center_lon deaths3) = ((103 : ℚ)/2, -(31 : ℚ)/300)
  rw [center_lat_deaths3, center_lon_deaths3]

/-- Is this child a tile layer? -/
def Child.isTile : Child → Bool
  | Child.tile _ => true
  | _ => false

/-- All three layers enabled, unknown basemap string `MoonMap`. -/
def ctrlMoon : ControlState :=
  { show_deaths := true, show_pumps := true, show_area := true,
    basemap := "MoonMap" }

/-- Counterexample to C2: with the unknown basemap `MoonMap` the
dispatch matches no branch, no tile layer is added, and the render
nevertheless completes: the full map (death cluster, pump marker, area
layer, layer control — 4 children) and both summary counts are
produced. No error of any kind is raised. -/
theorem moonmap_counterexample :
    basemapTile "MoonMap" = none
    ∧ (buildMap ctrlMoon deaths3 pumps1 areas2).children.filter Child.isTile = []
    ∧ (buildMap ctrlMoon deaths3 pumps1 areas2).children.length = 4
    ∧ (render ctrlMoon deaths3 pumps1 areas2).deathCount = 3
    ∧ (render ctrlMoon deaths3 pumps1 areas2).pumpCount = 1 := by
  refine ⟨rfl, ?_, ?_, rfl, rfl⟩ <;> decide

/-- The pump marker children are not tile layers: filtering them out of
the pump list removes nothing. -/
theorem filter_not_tile_pumps (l : List PointRecord) :
    (l.map (fun r => Child.pumpMarker (pumpMarker r))).filter
        (fun c => !c.isTile)
      = l.map (fun r => Child.pumpMarker (pumpMarker r)) := by
  induction l with
  | nil => rfl
  | cons x xs ih => simp [Child.isTile, ih]

/-- The pump marker children contain no tile layer. -/
theorem filter_tile_pumps (l : List PointRecord) :
    (l.map (fun r => Child.pumpMarker (pumpMarker r))).filter Child.isTile
      = [] := by
  induction l with
  | nil => rfl
  | cons x xs ih => simp [Child.isTile, ih]

/-- The conditional layer blocks are unaffected by filtering out tile
layers: none of their children is a tile. -/
theorem filter_not_tile_layerChildren (sd sp sa : Bool)
    (deaths pumps : List PointRecord) (areas : AreaGDF) :
    (layerChildren sd sp sa deaths pumps areas).filter (fun c => !c.isTile)
      = layerChildren sd sp sa deaths pumps areas := by
  cases sd <;> cases sp <;> cases sa <;>
    simp [layerChildren, List.filter_append, Child.isTile, areaLayer,
      filter_not_tile_pumps]

/-- The conditional layer blocks contain no tile layer. -/
theorem filter_tile_layerChildren (sd sp sa : Bool)
    (deaths pumps : List PointRecord) (areas : AreaGDF) :
    (layerChildren sd sp sa deaths pumps areas).filter Child.isTile = [] := by
  cases sd <;> cases sp <;> cases sa <;>
    simp [layerChildren, List.filter_append, Child.isTile, areaLayer,
      filter_tile_pumps]

/-- C2 amended: an unrecognized basemap selection silently degrades to a
map with no basemap: no tile layer is added, no error is raised, and the
rest of the view is exactly the view built under a known basemap with
its tile layer removed. -/
theorem unknown_basemap_silent (ctrl : ControlState)
    (deaths pumps : List PointRecord) (areas : AreaGDF)
    (h : basemapTile ctrl.basemap = none) :
    (buildMap ctrl deaths pumps areas).children.filter Child.isTile = []
    ∧ (buildMap ctrl deaths pumps areas).children
        = (buildMap { ctrl with basemap := "OpenStreetMap" }
            deaths pumps areas).children.filter (fun c => !c.isTile) := by
  rcases ctrl with ⟨sd, sp, sa, bm⟩
  simp only [buildMap] at h ⊢
  simp only [h, Option.toList_none, List.map_nil, List.nil_append]
  constructor
  · simp [List.filter_append, filter_tile_layerChildren, Child.isTile]
  · rw [List.filter_append, List.filter_append,
      filter_not_tile_layerChildren]
    rfl

/-- Witness for C2 amended at the concrete unknown basemap `MoonMap`. -/
theorem unknown_basemap_silent_witness :
    (buildMap ctrlMoon deaths3 pumps1 areas2).children.filter Child.isTile
      = [] :=
  (unknown_basemap_silent ctrlMoon deaths3 pumps1 areas2 rfl).1

/-- Counterexample to C7: a numeric source row with `x = 1000`,
`y = 2000` is accepted by the loader (no bounds check exists anywhere in
`load_data`), and the loaded record's latitude 1000 lies outside
[-90, 90] and its longitude 2000 outside [-180, 180]. -/
theorem loader_bounds_counterexample :
    (loadPoints [{ x := 1000, y := 2000 }]).length = 1
    ∧ loadPoints [{ x := 1000, y := 2000 }]
        = [{ geomX := 2000, geomY := 1000 }]
    ∧ ¬ (PointRecord.mk 2000 1000).validCoord := by
  refine ⟨rfl, rfl, ?_⟩
  intro hv
  have h2 := hv.2.1
  norm_num at h2

/-- C7 amended: the loader preserves the row count, and it preserves
bounds rather than establishing them: whenever every input row already
lies within [-90, 90] × [-180, 180] (latitude `x`, longitude `y`), every
loaded record's coordinate pair lies within latitude/longitude bounds;
the loader itself performs no bounds check. -/
theorem loader_preserves_bounds (rows : List Row) :
    (loadPoints rows).length = rows.length
    ∧ ((∀ r ∈ rows, r.inBounds) →
        ∀ p ∈ loadPoints rows, p.validCoord) := by
  refine ⟨by simp [loadPoints], ?_⟩
  intro h p hp
  obtain ⟨r, hr, rfl⟩ := List.mem_map.mp hp
  simpa [PointRecord.validCoord, Row.inBounds] using h r hr

/-- Witness for C7 amended at a concrete in-bounds one-row source. -/
theorem loader_preserves_bounds_witness :
    (PointRecord.mk (-(1 : ℚ)/10) ((515 : ℚ)/10)).validCoord :=
  (loader_preserves_bounds [{ x := (515 : ℚ)/10, y := -(1 : ℚ)/10 }]).2
    (by
      intro r hr
      simp only [List.mem_singleton] at hr
      subst hr
      refine ⟨by norm_num, by norm_num, by norm_num, by norm_num⟩)
    (PointRecord.mk (-(1 : ℚ)/10) ((515 : ℚ)/10))
    (by simp [loadPoints])

/-- The three data layers, in source order. -/
inductive LayerKind
  | deaths
  | pumps
  | areas
  deriving DecidableEq, Repr

/-- Which data layer a map child belongs to (tile layers and the layer
control belong to none). -/
def Child.dataKind : Child → Option LayerKind
  | Child.deathCluster _ _ => some LayerKind.deaths
  | Child.circle _ => some LayerKind.deaths
  | Child.pumpMarker _ => some LayerKind.pumps
  | Child.areaGeoJson _ _ _ _ => some LayerKind.areas
  | Child.tile _ => none
  | Child.layerControl => none

/-- The order of the data layers on the map: the kinds of the data
children, duplicates collapsed (each pump marker is its own child). -/
def layer_order (m : MapView) : List LayerKind :=
  (m.children.filterMap Child.dataKind).dedup

/-- The fixed order [deaths, pumps, areas] restricted to the enabled
layers. -/
def enabledKinds (sd sp sa : Bool) : List LayerKind :=
  (if sd then [LayerKind.deaths] else [])
    ++ (if sp then [LayerKind.pumps] else [])
    ++ (if sa then [LayerKind.areas] else [])

/-- The pump marker children all have data kind `pumps`. -/
theorem filterMap_dataKind_pumps (l : List PointRecord) :
    List.filterMap (Child.dataKind ∘ fun r => Child.pumpMarker (pumpMarker r))
        l
      = List.replicate l.length LayerKind.pumps := by
  induction l with
  | nil => rfl
  | cons x xs ih =>
    simp [Function.comp, Child.dataKind, ih, List.replicate_succ]

/-- The pump marker children are anonymous: they contribute nothing to
the layer control enumeration. -/
theorem filterMap_layerName_pumps (l : List PointRecord) :
    List.filterMap
        (Child.layerName ∘ fun r => Child.pumpMarker (pumpMarker r)) l
      = [] := by
  induction l with
  | nil => rfl
  | cons x xs ih => simp [Function.comp, Child.layerName, ih]

/-- Tile children have no data kind. -/
theorem filterMap_dataKind_tiles (o : Option TileLayer) :
    (o.toList.map Child.tile).filterMap Child.dataKind = [] := by
  cases o <;> simp [Child.dataKind]

/-- Tile children contribute their display names to the layer control. -/
theorem filterMap_layerName_tiles (o : Option TileLayer) :
    (o.toList.map Child.tile).filterMap Child.layerName
      = o.toList.map TileLayer.name := by
  cases o <;> simp [Child.layerName]

/-- Data kinds of the conditional layer blocks. -/
theorem filterMap_dataKind_layerChildren (sd sp sa : Bool)
    (d p : List PointRecord) (a : AreaGDF) :
    (layerChildren sd sp sa d p a).filterMap Child.dataKind
      = (if sd then [LayerKind.deaths] else [])
        ++ (if sp then List.replicate p.length LayerKind.pumps else [])
        ++ (if sa then [LayerKind.areas] else []) := by
  cases sd <;> cases sp <;> cases sa <;>
    simp [layerChildren, List.filterMap_append, Child.dataKind, areaLayer,
      filterMap_dataKind_pumps]

/-- Layer names of the conditional layer blocks: only the death cluster
and the area layer are named. -/
theorem filterMap_layerName_layerChildren (sd sp sa : Bool)
    (d p : List PointRecord) (a : AreaGDF) :
    (layerChildren sd sp sa d p a).filterMap Child.layerName
      = (if sd then ["Cholera Deaths"] else [])
        ++ (if sa then ["Cholera Area Polygons"] else []) := by
  cases sd <;> cases sp <;> cases sa <;>
    simp [layerChildren, List.filterMap_append, Child.layerName, areaLayer,
      filterMap_layerName_pumps]

/-- Deduplicating a nonempty constant block followed by a tail not
containing the constant keeps one copy of the constant in front. -/
theorem dedup_replicate_append {α : Type} [DecidableEq α] (n : ℕ) (a : α)
    (t : List α) (hn : n ≠ 0) (ha : a ∉ t) :
    (List.replicate n a ++ t).dedup = a :: t.dedup := by
  induction n with
  | zero => exact absurd rfl hn
  | succ n ih =>
    cases n with
    | zero =>
      simp only [List.replicate_succ, List.replicate_zero,
        List.cons_append, List.nil_append]
      exact List.dedup_cons_of_not_mem ha
    | succ m =>
      rw [List.replicate_succ, List.cons_append]
      rw [List.dedup_cons_of_mem (by simp [List.mem_replicate])]
      exact ih (by simp)

/-- Deduplicating the kind sequence of the enabled layer blocks yields
the fixed order restricted to the enabled layers, provided the pump
block is nonempty. -/
theorem dedup_kinds (sd sp sa : Bool) (n : ℕ) (hn : n ≠ 0) :
    ((if sd then [LayerKind.deaths] else [])
      ++ (if sp then List.replicate n LayerKind.pumps else [])
      ++ (if sa then [LayerKind.areas] else [])).dedup
    = enabledKinds sd sp sa := by
  cases sd <;> cases sp <;> cases sa
  case false.false.false => simp [enabledKinds]
  case false.false.true => simp [enabledKinds, List.dedup_cons_of_not_mem]
  case false.true.false =>
    have h := dedup_replicate_append n LayerKind.pumps [] hn (by simp)
    simp only [List.append_nil] at h
    simpa [enabledKinds] using h
  case false.true.true =>
    have h := dedup_replicate_append n LayerKind.pumps [LayerKind.areas]
      hn (by decide)
    simpa [enabledKinds, List.dedup_cons_of_not_mem] using h
  case true.false.false => simp [enabledKinds, List.dedup_cons_of_not_mem]
  case true.false.true => simp [enabledKinds, List.dedup_cons_of_not_mem]
  case true.true.false =>
    have h := dedup_replicate_append n LayerKind.pumps [] hn (by simp)
    simp only [List.append_nil] at h
    have hd : LayerKind.deaths ∉ List.replicate n LayerKind.pumps := by
      simp [List.mem_replicate]
    simp [enabledKinds, List.dedup_cons_of_not_mem hd, h]
  case true.true.true =>
    have h := dedup_replicate_append n LayerKind.pumps [LayerKind.areas]
      hn (by decide)
    have hd : LayerKind.deaths
        ∉ List.replicate n LayerKind.pumps ++ [LayerKind.areas] := by
      simp [List.mem_replicate]
    simp [enabledKinds, List.dedup_cons_of_not_mem hd, h,
      List.dedup_cons_of_not_mem]

/-- C4: for every toggle combination (with a nonempty pump source), the
data layers appear on the map in the fixed order [deaths, pumps, areas]
restricted to the enabled layers — independent of the toggle
combination — the layer control is attached last, and it enumerates
exactly the included named layers: the basemap tile, the death cluster
and the area layer (the individual pump markers are anonymous). -/
theorem layer_order_fixed (ctrl : ControlState)
    (deaths pumps : List PointRecord) (areas : AreaGDF)
    (hp : pumps ≠ []) :
    layer_order (buildMap ctrl deaths pumps areas)
      = enabledKinds ctrl.show_deaths ctrl.show_pumps ctrl.show_area
    ∧ (buildMap ctrl deaths pumps areas).children.getLast?
        = some Child.layerControl
    ∧ controlEntries (buildMap ctrl deaths pumps areas)
        = (basemapTile ctrl.basemap).toList.map TileLayer.name
          ++ (if ctrl.show_deaths then ["Cholera Deaths"] else [])
          ++ (if ctrl.show_area then ["Cholera Area Polygons"] else []) := by
  rcases ctrl with ⟨sd, sp, sa, bm⟩
  refine ⟨?_, ?_, ?_⟩
  · simp only [layer_order, buildMap, List.filterMap_append,
      filterMap_dataKind_tiles, filterMap_dataKind_layerChildren,
      List.nil_append]
    rw [show List.filterMap Child.dataKind [Child.layerControl] = []
      from rfl]
    rw [List.append_nil]
    exact dedup_kinds sd sp sa pumps.length
      (fun h => hp (List.length_eq_zero.mp h))
  · exact List.getLast?_concat _
  · simp only [controlEntries, buildMap, List.filterMap_append,
      filterMap_layerName_tiles, filterMap_layerName_layerChildren]
    rw [show List.filterMap Child.layerName [Child.layerControl] = []
      from rfl]
    rw [List.append_nil, List.append_assoc]

/-- Witness for C4 at the concrete scenario data with all layers on. -/
theorem layer_order_fixed_witness :
    layer_order (buildMap ctrlAll deaths3 pumps1 areas2)
      = enabledKinds true true true :=
  (layer_order_fixed ctrlAll deaths3 pumps1 areas2 (by simp [pumps1])).1

/-- The loaded dataset: the two point GeoDataFrames plus the normalized
area collection. -/
structure Dataset where
  deaths : GeoFrame
  pumps : GeoFrame
  areas : AreaGDF
  deriving DecidableEq, Repr

/-- The deaths block (lines 77-87) as a state-passing step: it reads the
dataset and returns the children it adds together with the dataset as it
stands afterwards. -/
def addDeathsLayer (sd : Bool) (ds : Dataset) : List Child × Dataset :=
  (if sd then
      [Child.deathCluster "Cholera Deaths"
        (ds.deaths.records.map deathMarker)]
    else [], ds)

/-- The pumps block (lines 90-96) as a state-passing step. -/
def addPumpsLayer (sp : Bool) (ds : Dataset) : List Child × Dataset :=
  (if sp then
      ds.pumps.records.map (fun r => Child.pumpMarker (pumpMarker r))
    else [], ds)

/-- The areas block (lines 99-113) as a state-passing step. -/
def addAreaLayer (sa : Bool) (ds : Dataset) : List Child × Dataset :=
  (if sa then [areaLayer ds.areas] else [], ds)

/-- The whole layer construction as a state-passing computation over the
dataset: each block receives the dataset left by the previous one. -/
def buildLayersSt (ctrl : ControlState) (ds : Dataset) :
    List Child × Dataset :=
  let s1 := addDeathsLayer ctrl.show_deaths ds
  let s2 := addPumpsLayer ctrl.show_pumps s1.2
  let s3 := addAreaLayer ctrl.show_area s2.2
  (s1.1 ++ s2.1 ++ s3.1, s3.2)

/-- C5: layer construction never mutates the dataset — the dataset after
all three construction blocks is the input dataset, records and
attributes identical — and the children it produces are exactly the data
layers the composed map carries, so building is a pure projection from
data plus config to the display representation. -/
theorem build_layers_pure (ctrl : ControlState) (ds : Dataset) :
    (buildLayersSt ctrl ds).2 = ds
    ∧ (buildLayersSt ctrl ds).1
        = layerChildren ctrl.show_deaths ctrl.show_pumps ctrl.show_area
            ds.deaths.records ds.pumps.records ds.areas
    ∧ (buildMap ctrl ds.deaths.records ds.pumps.records ds.areas).children
        = (basemapTile ctrl.basemap).toList.map Child.tile
          ++ (buildLayersSt ctrl ds).1 ++ [Child.layerControl] := by
  refine ⟨rfl, ?_, ?_⟩
  · simp [buildLayersSt, addDeathsLayer, addPumpsLayer, addAreaLayer,
      layerChildren]
  · simp [buildMap, buildLayersSt, addDeathsLayer, addPumpsLayer,
      addAreaLayer, layerChildren]

/-- Is this child a free-standing circle marker added directly to the
map? -/
def Child.isCircle : Child → Bool
  | Child.circle _ => true
  | _ => false

/-- The pump marker children are not free-standing circle markers. -/
theorem filter_circle_pumps (l : List PointRecord) :
    (l.map (fun r => Child.pumpMarker (pumpMarker r))).filter Child.isCircle
      = [] := by
  induction l with
  | nil => rfl
  | cons x xs ih => simp [Child.isCircle, ih]

/-- The tile children are not free-standing circle markers. -/
theorem filter_circle_tiles (o : Option TileLayer) :
    (o.toList.map Child.tile).filter Child.isCircle = [] := by
  cases o <;> simp [Child.isCircle]

/-- The conditional layer blocks contain no free-standing circle
marker. -/
theorem filter_circle_layerChildren (sd sp sa : Bool)
    (deaths pumps : List PointRecord) (areas : AreaGDF) :
    (layerChildren sd sp sa deaths pumps areas).filter Child.isCircle
      = [] := by
  cases sd <;> cases sp <;> cases sa <;>
    simp [layerChildren, List.filter_append, Child.isCircle, areaLayer,
      filter_circle_pumps]

/-- C10: clustering is fixed: whenever the deaths layer is enabled the
death cluster holding every death marker is on the map and no circle
marker is ever free-standing; whenever the pumps layer is enabled every
pump is an individual `Marker` directly on the map; and the only marker
cluster that can appear is the deaths cluster with exactly the death
markers — for every dataset and every control state. -/
theorem clustering_fixed (ctrl : ControlState)
    (deaths pumps : List PointRecord) (areas : AreaGDF) :
    (ctrl.show_deaths = true →
      Child.deathCluster "Cholera Deaths" (deaths.map deathMarker)
        ∈ (buildMap ctrl deaths pumps areas).children)
    ∧ (buildMap ctrl deaths pumps areas).children.filter Child.isCircle = []
    ∧ (ctrl.show_pumps = true → ∀ r ∈ pumps,
        Child.pumpMarker (pumpMarker r)
          ∈ (buildMap ctrl deaths pumps areas).children)
    ∧ (∀ nm ms,
        Child.deathCluster nm ms
            ∈ (buildMap ctrl deaths pumps areas).children →
          nm = "Cholera Deaths" ∧ ms = deaths.map deathMarker) := by
  rcases ctrl with ⟨sd, sp, sa, bm⟩
  refine ⟨?_, ?_, ?_, ?_⟩
  · intro h
    simp only at h
    subst h
    simp [buildMap, layerChildren]
  · simp [buildMap, List.filter_append, filter_circle_tiles,
      filter_circle_layerChildren, Child.isCircle]
  · intro h r hr
    simp only at h
    subst h
    have hm1 : Child.pumpMarker (pumpMarker r)
        ∈ pumps.map (fun q => Child.pumpMarker (pumpMarker q)) :=
      List.mem_map_of_mem _ hr
    have hm2 : Child.pumpMarker (pumpMarker r)
        ∈ layerChildren sd true sa deaths pumps areas := by
      unfold layerChildren
      refine List.mem_append.mpr (Or.inl ?_)
      refine List.mem_append.mpr (Or.inr ?_)
      simpa using hm1
    show _ ∈ (basemapTile bm).toList.map Child.tile
        ++ layerChildren sd true sa deaths pumps areas
        ++ [Child.layerControl]
    exact List.mem_append.mpr (Or.inl (List.mem_append.mpr (Or.inr hm2)))
  · intro nm ms hmem
    cases sd <;> cases sp <;> cases sa <;>
      simp [buildMap, layerChildren, areaLayer] at hmem <;>
      exact hmem

/-- Witness for C10 at the concrete scenario data with all layers on. -/
theorem clustering_fixed_witness :
    Child.deathCluster "Cholera Deaths" (deaths3.map deathMarker)
      ∈ (buildMap ctrlAll deaths3 pumps1 areas2).children :=
  (clustering_fixed ctrlAll deaths3 pumps1 areas2).1 rfl

/-- The non-tile children of the map: the data layers plus the layer
control. -/
def dataChildren (m : MapView) : List Child :=
  m.children.filter (fun c => !c.isTile)

/-- The overlay entries of the layer control: names of the named
non-tile layers. -/
def overlayEntries (m : MapView) : List String :=
  (dataChildren m).filterMap Child.layerName

/-- The non-tile children of a composed map are exactly the conditional
layer blocks followed by the layer control — independent of the basemap
string. -/
theorem dataChildren_buildMap (sd sp sa : Bool) (bm : String)
    (d p : List PointRecord) (a : AreaGDF) :
    dataChildren (buildMap ⟨sd, sp, sa, bm⟩ d p a)
      = layerChildren sd sp sa d p a ++ [Child.layerControl] := by
  simp only [dataChildren, buildMap]
  rw [List.filter_append, List.filter_append,
    filter_not_tile_layerChildren]
  have ht : ((basemapTile bm).toList.map Child.tile).filter
      (fun c => !c.isTile) = [] := by
    cases basemapTile bm <;> simp [Child.isTile]
  rw [ht]
  rfl

/-- C9 amended: two renders on the same data and toggles that differ
only in the basemap string agree on the map center, the zoom level, all
non-tile children (death cluster, pump markers, area layer, layer
control), the overlay entries of the layer control, and both summary
counts; only the tile layer — and therefore the base-layer entry of the
layer control — can differ. -/
theorem basemap_noninterference (sd sp sa : Bool) (b1 b2 : String)
    (deaths pumps : List PointRecord) (areas : AreaGDF) :
    (render ⟨sd, sp, sa, b1⟩ deaths pumps areas).view.location
        = (render ⟨sd, sp, sa, b2⟩ deaths pumps areas).view.location
    ∧ (render ⟨sd, sp, sa, b1⟩ deaths pumps areas).view.zoom_start
        = (render ⟨sd, sp, sa, b2⟩ deaths pumps areas).view.zoom_start
    ∧ dataChildren (render ⟨sd, sp, sa, b1⟩ deaths pumps areas).view
        = dataChildren (render ⟨sd, sp, sa, b2⟩ deaths pumps areas).view
    ∧ overlayEntries (render ⟨sd, sp, sa, b1⟩ deaths pumps areas).view
        = overlayEntries (render ⟨sd, sp, sa, b2⟩ deaths pumps areas).view
    ∧ (render ⟨sd, sp, sa, b1⟩ deaths pumps areas).deathCount
        = (render ⟨sd, sp, sa, b2⟩ deaths pumps areas).deathCount
    ∧ (render ⟨sd, sp, sa, b1⟩ deaths pumps areas).pumpCount
        = (render ⟨sd, sp, sa, b2⟩ deaths pumps areas).pumpCount := by
  refine ⟨rfl, rfl, ?_, ?_, rfl, rfl⟩
  · show dataChildren (buildMap ⟨sd, sp, sa, b1⟩ deaths pumps areas)
        = dataChildren (buildMap ⟨sd, sp, sa, b2⟩ deaths pumps areas)
    rw [dataChildren_buildMap, dataChildren_buildMap]
  · show (dataChildren (buildMap ⟨sd, sp, sa, b1⟩ deaths pumps
          areas)).filterMap Child.layerName
        = (dataChildren (buildMap ⟨sd, sp, sa, b2⟩ deaths pumps
            areas)).filterMap Child.layerName
    rw [dataChildren_buildMap, dataChildren_buildMap]

/-- All three layers enabled, basemap `CartoDB Positron`. -/
def ctrlPositron : ControlState :=
  { show_deaths := true, show_pumps := true, show_area := true,
    basemap := "CartoDB Positron" }

/-- Counterexample to C9 as stated: two runs on the same data and
toggles differing only in the basemap do NOT produce an identical layer
control — the control enumerates the named layers, which include the
tile layer, so its entry list differs between the two basemaps. -/
theorem basemap_changes_layer_control :
    ctrlAll.show_deaths = ctrlPositron.show_deaths
    ∧ ctrlAll.show_pumps = ctrlPositron.show_pumps
    ∧ ctrlAll.show_area = ctrlPositron.show_area
    ∧ ctrlAll.basemap ≠ ctrlPositron.basemap
    ∧ controlEntries (buildMap ctrlAll deaths3 pumps1 areas2)
        ≠ controlEntries (buildMap ctrlPositron deaths3 pumps1 areas2) := by
  refine ⟨rfl, rfl, rfl, ?_, ?_⟩ <;> decide

/-- The value the GeoJSON tooltip renders for a field: the feature's
property of that name (the first binding in the property list). -/
def propValue (props : List (String × String)) (f : String) : String :=
  match props with
  | [] => ""
  | (k, v) :: t => if f = k then v else propValue t f

/-- The (field-name, field-value) pairs the `GeoJsonTooltip` renders for
one area record: one pair per configured tooltip field, in field order. -/
def rendered_tooltip (gdf : AreaGDF) (r : AreaRecord) :
    List (String × String) :=
  (tooltip_fields gdf).map (fun f => (f, propValue r.attrs f))

/-- Looking each key of a duplicate-free property list back up recovers
the list itself. -/
theorem map_propValue_keys (l : List (String × String))
    (h : (l.map Prod.fst).Nodup) :
    (l.map Prod.fst).map (fun f => (f, propValue l f)) = l := by
  induction l with
  | nil => rfl
  | cons kv t ih =>
    obtain ⟨k, v⟩ := kv
    simp only [List.map_cons, List.nodup_cons] at h
    obtain ⟨hk, ht⟩ := h
    simp only [List.map_cons]
    have hhead : propValue ((k, v) :: t) k = v := by simp [propValue]
    have hcongr : ∀ f ∈ t.map Prod.fst,
        (f, propValue ((k, v) :: t) f) = (f, propValue t f) := by
      intro f hf
      have hne : f ≠ k := fun he => hk (he ▸ hf)
      simp [propValue, hne]
    rw [hhead, List.map_congr_left hcongr, ih ht]

/-- C8: when every record's property keys are exactly the non-geometry
columns in the source's stable order (the GeoDataFrame invariant) and
the columns are distinct, the tooltip of every rendered polygon lists
exactly its record's (field-name, field-value) pairs in that order; and
the aliases equal the fields. -/
theorem area_tooltip_lists_attrs (gdf : AreaGDF)
    (hcols : gdf.columns.Nodup)
    (hkeys : ∀ r ∈ gdf.rows, r.attrs.map Prod.fst = tooltip_fields gdf) :
    (∀ r ∈ gdf.rows, rendered_tooltip gdf r = r.attrs)
    ∧ areaLayer gdf
        = Child.areaGeoJson "Cholera Area Polygons" (tooltip_fields gdf)
            (tooltip_fields gdf) gdf.rows := by
  refine ⟨?_, rfl⟩
  intro r hr
  have hnd : (r.attrs.map Prod.fst).Nodup := by
    rw [hkeys r hr]
    exact hcols.filter _
  unfold rendered_tooltip
  rw [← hkeys r hr]
  exact map_propValue_keys r.attrs hnd

/-- Witness for C8 at the concrete two-polygon area source. -/
theorem area_tooltip_lists_attrs_witness :
    rendered_tooltip areas2
        { attrs := [("name", "A"), ("cases", "10")],
          geom := { ring := [(0, 0), (0, 1), (1, 0)] } }
      = [("name", "A"), ("cases", "10")] :=
  (area_tooltip_lists_attrs areas2 (by decide) (by decide)).1
    { attrs := [("name", "A"), ("cases", "10")],
      geom := { ring := [(0, 0), (0, 1), (1, 0)] } }
    (by decide)

end JohnSnow
